import Mathlib

/-!
# terraform-provider-doom: the session resource and the provider configuration

A shallow embedding of `internal/provider/provider.go` and
`internal/provider/session_resource.go`.

* Go `error` values are modelled by their `Error()` text; a `nil` error is `none`.
* The operating system (package `os/exec`, package `gopsutil/process`) is an
  explicit oracle `OS`: one function per call the provider makes, giving the
  result of that call.  Every operation also returns the list of calls it made,
  in order, so that "launches", "signals" and "does not signal" are statements
  about that list.
* The plugin framework values the code touches (`Diagnostics`, `State`, `Plan`,
  `Config`, `types.String`, `types.Int32`) are modelled at the resource's
  schema: a state is either null or holds one `SessionResourceModel`.
* Every operation takes the response it is handed and returns the response it
  leaves behind, as the Go methods do through their `resp` pointer.
* The `context.Context` argument has no bearing on the results and is left out.
-/

namespace Doom

/-- Go's built-in `string` type. -/
abbrev string := String

/-! ## Framework values -/

/-- Severity of a diagnostic (`diag.Severity`). -/
inductive Severity where
  | Error
  | Warning
  deriving DecidableEq, Repr

/-- One diagnostic (`diag.Diagnostic`): severity, summary and detail. -/
structure Diagnostic where
  severity : Severity
  summary : string
  detail : string
  deriving DecidableEq, Repr

/-- A collection of diagnostics (`diag.Diagnostics`), in the order they were added. -/
abbrev Diagnostics := List Diagnostic

/-- The error diagnostic built by `diag.NewErrorDiagnostic`. -/
def NewErrorDiagnostic (summary detail : string) : Diagnostic :=
  { severity := Severity.Error, summary := summary, detail := detail }

/-- `Diagnostics.HasError`: some diagnostic has error severity. -/
def Diagnostics.HasError (diags : Diagnostics) : Bool :=
  diags.any (fun d => decide (d.severity = Severity.Error))

/-- `Diagnostics.Append`: adds the given diagnostics one by one, skipping any
that the collection already contains. -/
def Diagnostics.Append (diags : Diagnostics) (more : Diagnostics) : Diagnostics :=
  more.foldl (fun acc d => if d ∈ acc then acc else acc ++ [d]) diags

/-- `Diagnostics.AddError`: appends a new error diagnostic. -/
def Diagnostics.AddError (diags : Diagnostics) (summary detail : string) : Diagnostics :=
  Diagnostics.Append diags [NewErrorDiagnostic summary detail]

/-- The framework string value `types.String`: null, unknown, or a known string. -/
inductive types.String where
  | Null
  | Unknown
  | Value (s : string)
  deriving DecidableEq, Repr

/-- `types.String.ValueString`: the known string, or `""` when null or unknown. -/
def types.String.ValueString : types.String → string
  | types.String.Value s => s
  | _ => ""

/-- The framework 32-bit integer value `types.Int32`: null, unknown, or a known `int32`. -/
inductive types.Int32 where
  | Null
  | Unknown
  | Value (v : Int)
  deriving DecidableEq, Repr

/-- `types.Int32.ValueInt32`: the known value, or `0` when null or unknown. -/
def types.Int32.ValueInt32 : types.Int32 → Int
  | types.Int32.Value v => v
  | _ => 0

/-- `types.Int32Value`: a known value. -/
def types.Int32Value (v : Int) : types.Int32 := types.Int32.Value v

/-- Go's conversion `int32(v)` of an `int`: the value wrapped into `[-2^31, 2^31)`. -/
def int32 (v : Int) : Int := (v + 2 ^ 31) % 2 ^ 32 - 2 ^ 31

/-- `SessionResourceModel`: the resource data model for a session of Doom. -/
structure SessionResourceModel where
  Wad : types.String
  Pid : types.Int32
  deriving DecidableEq, Repr

/-- `DoomProviderModel`: the configuration for running Doom. -/
structure DoomProviderModel where
  Path : types.String
  deriving DecidableEq, Repr

/-- The diagnostic the framework reports when a null object is decoded into a
struct that cannot hold null (its detail text is abbreviated here). -/
def valueConversionError : Diagnostic :=
  NewErrorDiagnostic "Value Conversion Error"
    "Received null value, however the target type cannot handle null values."

/-- `tfsdk.State` at the session schema: null (absent resource) or one object. -/
structure tfsdk.State where
  Raw : Option SessionResourceModel
  deriving DecidableEq, Repr

/-- `State.Get(ctx, &data)`: the diagnostics of the decoding and the decoded
model; on a null state the model stays at its zero value. -/
def tfsdk.State.Get (s : tfsdk.State) : Diagnostics × SessionResourceModel :=
  match s.Raw with
  | some m => ([], m)
  | none => ([valueConversionError], { Wad := types.String.Null, Pid := types.Int32.Null })

/-- `State.Set(ctx, &data)`: the diagnostics of the encoding and the new state. -/
def tfsdk.State.Set (_s : tfsdk.State) (data : SessionResourceModel) :
    Diagnostics × tfsdk.State :=
  ([], { Raw := some data })

/-- `State.RemoveResource(ctx)`: the state becomes null. -/
def tfsdk.State.RemoveResource (_s : tfsdk.State) : tfsdk.State :=
  { Raw := none }

/-- `tfsdk.Plan` at the session schema. -/
structure tfsdk.Plan where
  Raw : Option SessionResourceModel
  deriving DecidableEq, Repr

/-- `Plan.Get(ctx, &data)`. -/
def tfsdk.Plan.Get (p : tfsdk.Plan) : Diagnostics × SessionResourceModel :=
  match p.Raw with
  | some m => ([], m)
  | none => ([valueConversionError], { Wad := types.String.Null, Pid := types.Int32.Null })

/-- `tfsdk.Config` at the provider schema. -/
structure tfsdk.Config where
  Raw : Option DoomProviderModel
  deriving DecidableEq, Repr

/-- `Config.Get(ctx, &data)`. -/
def tfsdk.Config.Get (c : tfsdk.Config) : Diagnostics × DoomProviderModel :=
  match c.Raw with
  | some m => ([], m)
  | none => ([valueConversionError], { Path := types.String.Null })

/-- A dynamically typed Go value (`any`) as `ProviderData` carries it: a string,
or a value of another type, kept by the name `%T` prints for it. -/
inductive any where
  | String (s : string)
  | Other (typeName : string)
  deriving DecidableEq, Repr

/-- `provider.ConfigureRequest`. -/
structure provider.ConfigureRequest where
  Config : tfsdk.Config

/-- `provider.ConfigureResponse`; `ResourceData` is `nil` until it is set. -/
structure provider.ConfigureResponse where
  ResourceData : Option any
  Diagnostics : Diagnostics

/-- `resource.ConfigureRequest`. -/
structure resource.ConfigureRequest where
  ProviderData : Option any

/-- `resource.ConfigureResponse`. -/
structure resource.ConfigureResponse where
  Diagnostics : Diagnostics

/-- `resource.CreateRequest`. -/
structure resource.CreateRequest where
  Plan : tfsdk.Plan

/-- `resource.CreateResponse`. -/
structure resource.CreateResponse where
  State : tfsdk.State
  Diagnostics : Diagnostics

/-- `resource.ReadRequest`. -/
structure resource.ReadRequest where
  State : tfsdk.State

/-- `resource.ReadResponse`. -/
structure resource.ReadResponse where
  State : tfsdk.State
  Diagnostics : Diagnostics

/-- `resource.UpdateRequest`. -/
structure resource.UpdateRequest where
  Plan : tfsdk.Plan
  State : tfsdk.State

/-- `resource.UpdateResponse`. -/
structure resource.UpdateResponse where
  State : tfsdk.State
  Diagnostics : Diagnostics

/-- `resource.DeleteRequest`. -/
structure resource.DeleteRequest where
  State : tfsdk.State

/-- `resource.DeleteResponse`. -/
structure resource.DeleteResponse where
  State : tfsdk.State
  Diagnostics : Diagnostics

/-! ## The operating system -/

/-- The results of the operating-system calls the provider makes.

* `LookPath file`: `exec.LookPath`, the resolved path or an error;
* `Start name arg`: `exec.CommandContext(ctx, name, arg...)` followed by
  `cmd.Start()`, the process id (`cmd.Process.Pid`, a Go `int`) or an error;
* `Release pid`: `cmd.Process.Release()` for the started process, its error;
* `PidExists pid`: `process.PidExistsWithContext`, the flag and the error;
* `NewProcess pid`: `process.NewProcessWithContext`, its error;
* `Kill pid`: `p.KillWithContext` on the process found, its error. -/
structure OS where
  LookPath : string → Except string string
  Start : string → List string → Except string Int
  Release : Int → Option string
  PidExists : Int → Bool × Option string
  NewProcess : Int → Option string
  Kill : Int → Option string

/-- One call made to the outside world, with its arguments; `Trace` is the
`tflog.Trace` event. -/
inductive OsCall where
  | LookPath (file : string)
  | Start (name : string) (arg : List string)
  | Release (pid : Int)
  | PidExists (pid : Int)
  | NewProcess (pid : Int)
  | Kill (pid : Int)
  | Trace (msg : string)
  deriving DecidableEq, Repr

/-! ## provider.go -/

/-- `DoomProvider`: the provider, with its version. -/
structure DoomProvider where
  version : string

/-- `DoomProvider.Configure`. -/
def DoomProvider.Configure (os : OS) (_p : DoomProvider) (req : provider.ConfigureRequest)
    (resp : provider.ConfigureResponse) : provider.ConfigureResponse × List OsCall :=
  let got := req.Config.Get
  let data := got.2
  let resp := { resp with Diagnostics := Diagnostics.Append resp.Diagnostics got.1 }
  if Diagnostics.HasError resp.Diagnostics then
    (resp, [])
  else
    match os.LookPath data.Path.ValueString with
    | Except.error err =>
      ({ resp with Diagnostics := (Diagnostics.AddError resp.Diagnostics
            "Failed to find Doom executable" ("... details ... " ++ err)) },
        [OsCall.LookPath data.Path.ValueString])
    | Except.ok path =>
      ({ resp with ResourceData := some (any.String path) },
        [OsCall.LookPath data.Path.ValueString])

/-! ## session_resource.go -/

/-- `SessionResource`: the resource implementation for a session of Doom. -/
structure SessionResource where
  path : string
  deriving DecidableEq, Repr

/-- `NewSessionResource`: a resource whose path is the zero value. -/
def NewSessionResource : SessionResource := { path := "" }

/-- `SessionResource.Configure`: returns the resource as the call leaves it and
the response. -/
def SessionResource.Configure (r : SessionResource) (req : resource.ConfigureRequest)
    (resp : resource.ConfigureResponse) : SessionResource × resource.ConfigureResponse :=
  match req.ProviderData with
  | none => (r, resp)
  | some (any.String path) => ({ r with path := path }, resp)
  | some (any.Other typeName) =>
    (r, { resp with Diagnostics := (Diagnostics.AddError resp.Diagnostics
            "Unexpected Resource Configure Type"
            ("Expected string, got: " ++ typeName ++
              ". Please report this issue to the provider developers.")) })

/-- `SessionResource.Create`. -/
def SessionResource.Create (os : OS) (r : SessionResource) (req : resource.CreateRequest)
    (resp : resource.CreateResponse) : resource.CreateResponse × List OsCall :=
  let got := req.Plan.Get
  let data := got.2
  let resp := { resp with Diagnostics := Diagnostics.Append resp.Diagnostics got.1 }
  if Diagnostics.HasError resp.Diagnostics then
    (resp, [])
  else
    let cmd := OsCall.Start r.path ["-iwad", data.Wad.ValueString]
    match os.Start r.path ["-iwad", data.Wad.ValueString] with
    | Except.error err =>
      ({ resp with Diagnostics := (Diagnostics.AddError resp.Diagnostics
            "Failed to start Doom" ("... details ... " ++ err)) },
        [cmd])
    | Except.ok pid =>
      match os.Release pid with
      | some err =>
        ({ resp with Diagnostics := (Diagnostics.AddError resp.Diagnostics
              "Failed to start Doom" ("... details ... " ++ err)) },
          [cmd, OsCall.Release pid])
      | none =>
        let data := { data with Pid := types.Int32Value (int32 pid) }
        let set := resp.State.Set data
        ({ State := set.2, Diagnostics := Diagnostics.Append resp.Diagnostics set.1 },
          [cmd, OsCall.Release pid,
            OsCall.Trace ("started " ++ r.path ++ " with pid " ++ toString pid)])

/-- `SessionResource.Read`. -/
def SessionResource.Read (os : OS) (_r : SessionResource) (req : resource.ReadRequest)
    (resp : resource.ReadResponse) : resource.ReadResponse × List OsCall :=
  let got := req.State.Get
  let data := got.2
  let resp := { resp with Diagnostics := Diagnostics.Append resp.Diagnostics got.1 }
  if Diagnostics.HasError resp.Diagnostics then
    (resp, [])
  else
    let ok := (os.PidExists data.Pid.ValueInt32).1
    if !ok then
      ({ resp with State := resp.State.RemoveResource }, [OsCall.PidExists data.Pid.ValueInt32])
    else
      let set := resp.State.Set data
      ({ State := set.2, Diagnostics := Diagnostics.Append resp.Diagnostics set.1 },
        [OsCall.PidExists data.Pid.ValueInt32])

/-- `SessionResource.Update`. -/
def SessionResource.Update (_r : SessionResource) (_req : resource.UpdateRequest)
    (resp : resource.UpdateResponse) : resource.UpdateResponse × List OsCall :=
  ({ resp with Diagnostics := (Diagnostics.AddError resp.Diagnostics
        "Update not supported" "Please report this issue to the provider developers.") },
    [])

/-- `SessionResource.Delete`. -/
def SessionResource.Delete (os : OS) (_r : SessionResource) (req : resource.DeleteRequest)
    (resp : resource.DeleteResponse) : resource.DeleteResponse × List OsCall :=
  let got := req.State.Get
  let data := got.2
  let resp := { resp with Diagnostics := Diagnostics.Append resp.Diagnostics got.1 }
  if Diagnostics.HasError resp.Diagnostics then
    (resp, [])
  else
    match os.NewProcess data.Pid.ValueInt32 with
    | some _ =>
      -- Process was killed externally during CLI execution, we consider this a success.
      (resp, [OsCall.NewProcess data.Pid.ValueInt32])
    | none =>
      match os.Kill data.Pid.ValueInt32 with
      | some err =>
        ({ resp with Diagnostics := (Diagnostics.AddError resp.Diagnostics
              "Failed to kill Doom session" ("... details ... " ++ err)) },
          [OsCall.NewProcess data.Pid.ValueInt32, OsCall.Kill data.Pid.ValueInt32])
      | none =>
        (resp, [OsCall.NewProcess data.Pid.ValueInt32, OsCall.Kill data.Pid.ValueInt32])

/-! ## Vocabulary of the statements -/

/-- The text `s` contains the text `e` verbatim. -/
def containsText (s e : string) : Prop := e.data <:+: s.data

instance (s e : string) : Decidable (containsText s e) := by
  unfold containsText; infer_instance

/-- The collection holds an error diagnostic whose detail contains the text `e`. -/
def reportsError (diags : Diagnostics) (e : string) : Prop :=
  ∃ d ∈ diags, d.severity = Severity.Error ∧ containsText d.detail e

/-- A process was launched: the call list holds a `Start`. -/
def launches : OsCall → Bool
  | OsCall.Start _ _ => true
  | _ => false

/-- A process was signalled: the call list holds a `Kill`. -/
def signals : OsCall → Bool
  | OsCall.Kill _ => true
  | _ => false

/-! ## Sample inputs -/

/-- A world in which every call succeeds: the lookup resolves below `/usr/bin/`,
the started process gets id 4242, and that process exists. -/
def osAllGood : OS where
  LookPath := fun file => Except.ok ("/usr/bin/" ++ file)
  Start := fun _ _ => Except.ok 4242
  Release := fun _ => none
  PidExists := fun _ => (true, none)
  NewProcess := fun _ => none
  Kill := fun _ => none

/-- A world in which the process has gone: the existence query answers no,
the lookup reports that the process does not exist. -/
def osGone : OS where
  LookPath := fun file => Except.ok ("/usr/bin/" ++ file)
  Start := fun _ _ => Except.ok 4242
  Release := fun _ => none
  PidExists := fun _ => (false, none)
  NewProcess := fun _ => some "process does not exist"
  Kill := fun _ => none

/-- A world in which every call fails with an error. -/
def osAllFail : OS where
  LookPath := fun _ => Except.error "executable file not found in $PATH"
  Start := fun _ _ => Except.error "fork/exec: permission denied"
  Release := fun _ => some "invalid argument"
  PidExists := fun _ => (false, some "input/output error")
  NewProcess := fun _ => some "input/output error"
  Kill := fun _ => some "operation not permitted"

/-- A world in which the start succeeds and the release of the handle fails,
and in which the process is found and the kill fails. -/
def osHalf : OS where
  LookPath := fun file => Except.ok ("/usr/bin/" ++ file)
  Start := fun _ _ => Except.ok 4242
  Release := fun _ => some "invalid argument"
  PidExists := fun _ => (true, some "input/output error")
  NewProcess := fun _ => none
  Kill := fun _ => some "operation not permitted"

/-- A configured resource. -/
def sampleResource : SessionResource := { path := "/usr/bin/doom" }

/-- The model a plan for a new session holds: the pid is not known yet. -/
def samplePlanned : SessionResourceModel :=
  { Wad := types.String.Value "freedoom1.wad", Pid := types.Int32.Unknown }

/-- The model a state holds after a create. -/
def sampleStored : SessionResourceModel :=
  { Wad := types.String.Value "freedoom1.wad", Pid := types.Int32.Value 4242 }

/-! ## Facts about diagnostics -/

theorem Diagnostics.Append_nil (diags : Diagnostics) : Diagnostics.Append diags [] = diags := rfl

theorem Diagnostics.Append_cons (diags : Diagnostics) (d : Diagnostic) (more : Diagnostics) :
    Diagnostics.Append diags (d :: more) =
      Diagnostics.Append (if d ∈ diags then diags else diags ++ [d]) more := rfl

theorem Diagnostics.HasError_concat (a b : Diagnostics) :
    Diagnostics.HasError (a ++ b) = (Diagnostics.HasError a || Diagnostics.HasError b) := by
  simp [Diagnostics.HasError, List.any_append]

theorem Diagnostics.HasError_of_mem {diags : Diagnostics} {d : Diagnostic} (hd : d ∈ diags)
    (he : d.severity = Severity.Error) : Diagnostics.HasError diags = true := by
  simp only [Diagnostics.HasError, List.any_eq_true]
  exact ⟨d, hd, by simp [he]⟩

theorem Diagnostics.HasError_Append (diags more : Diagnostics) :
    Diagnostics.HasError (Diagnostics.Append diags more) =
      (Diagnostics.HasError diags || Diagnostics.HasError more) := by
  induction more generalizing diags with
  | nil => simp [Diagnostics.Append_nil, Diagnostics.HasError]
  | cons d more ih =>
    rw [Diagnostics.Append_cons, ih]
    by_cases hd : d ∈ diags
    · simp only [hd, if_true]
      by_cases he : d.severity = Severity.Error
      · have h1 := Diagnostics.HasError_of_mem hd he
        simp [h1]
      · simp [Diagnostics.HasError, he]
    · simp only [hd, if_false, Diagnostics.HasError_concat]
      simp [Diagnostics.HasError, Bool.or_assoc]

theorem Diagnostics.mem_AddError (diags : Diagnostics) (summary detail : string) :
    NewErrorDiagnostic summary detail ∈ Diagnostics.AddError diags summary detail := by
  unfold Diagnostics.AddError
  rw [Diagnostics.Append_cons, Diagnostics.Append_nil]
  by_cases h : NewErrorDiagnostic summary detail ∈ diags
  · simp [h]
  · simp [h]

theorem Diagnostics.HasError_AddError (diags : Diagnostics) (summary detail : string) :
    Diagnostics.HasError (Diagnostics.AddError diags summary detail) = true :=
  Diagnostics.HasError_of_mem (Diagnostics.mem_AddError diags summary detail) rfl

theorem Diagnostics.AddError_of_not_mem (diags : Diagnostics) (summary detail : string)
    (h : NewErrorDiagnostic summary detail ∉ diags) :
    Diagnostics.AddError diags summary detail = diags ++ [NewErrorDiagnostic summary detail] := by
  unfold Diagnostics.AddError
  rw [Diagnostics.Append_cons, Diagnostics.Append_nil]
  simp [h]

theorem Diagnostics.reportsError_AddError (diags : Diagnostics) (summary pre e : string) :
    reportsError (Diagnostics.AddError diags summary (pre ++ e)) e := by
  refine ⟨NewErrorDiagnostic summary (pre ++ e), Diagnostics.mem_AddError _ _ _, rfl, ?_⟩
  exact ⟨pre.data, [], by simp [NewErrorDiagnostic]⟩

/-- A state decodes without error exactly when it is not null, and then the
decoding returns its object with no diagnostic at all. -/
theorem tfsdk.State.Get_state_no_error (s : tfsdk.State)
    (h : Diagnostics.HasError s.Get.1 = false) : s.Raw = some s.Get.2 ∧ s.Get.1 = [] := by
  unfold tfsdk.State.Get at *
  cases hr : s.Raw with
  | none => rw [hr] at h; simp [Diagnostics.HasError, valueConversionError, NewErrorDiagnostic] at h
  | some m => simp

/-- A state that decodes without error is the state holding the decoded object. -/
theorem tfsdk.State.mk_Get_of_no_error (s : tfsdk.State)
    (h : Diagnostics.HasError s.Get.1 = false) :
    ({ Raw := some s.Get.2 } : tfsdk.State) = s := by
  cases s with
  | mk raw =>
    cases raw with
    | none => simp [tfsdk.State.Get, Diagnostics.HasError, valueConversionError,
        NewErrorDiagnostic] at h
    | some m => simp [tfsdk.State.Get]

/-- A plan decodes without error exactly when it is not null, and then the
decoding returns its object with no diagnostic at all. -/
theorem tfsdk.Plan.Get_plan_no_error (p : tfsdk.Plan)
    (h : Diagnostics.HasError p.Get.1 = false) : p.Raw = some p.Get.2 ∧ p.Get.1 = [] := by
  unfold tfsdk.Plan.Get at *
  cases hr : p.Raw with
  | none => rw [hr] at h; simp [Diagnostics.HasError, valueConversionError, NewErrorDiagnostic] at h
  | some m => simp

/-- A configuration decodes without error exactly when it is not null. -/
theorem tfsdk.Config.Get_config_no_error (c : tfsdk.Config)
    (h : Diagnostics.HasError c.Get.1 = false) : c.Raw = some c.Get.2 ∧ c.Get.1 = [] := by
  unfold tfsdk.Config.Get at *
  cases hr : c.Raw with
  | none => rw [hr] at h; simp [Diagnostics.HasError, valueConversionError, NewErrorDiagnostic] at h
  | some m => simp

/-- Within the range of `int32` the conversion changes nothing. -/
theorem int32_of_range (v : Int) (h : -2 ^ 31 ≤ v ∧ v < 2 ^ 31) : int32 v = v := by
  unfold int32
  have h1 : (v + 2 ^ 31) % 2 ^ 32 = v + 2 ^ 31 := by
    apply Int.emod_eq_of_lt <;> omega
  omega

/-- When the response carries no error and the state decodes without error,
the diagnostics after the decoding step are the ones the response came with. -/
theorem Diagnostics.Append_Get_of_no_error (diags : Diagnostics) (s : tfsdk.State)
    (hget : Diagnostics.HasError s.Get.1 = false) :
    Diagnostics.Append diags s.Get.1 = diags := by
  rw [(tfsdk.State.Get_state_no_error s hget).2, Diagnostics.Append_nil]

/-! ## Read -/

/-- C1 (Read, drift path): for a persisted state that decodes without error,
handed a response without errors, if the existence query for the stored pid
answers that the process does not exist, `Read` leaves a null state (the
resource is removed), adds no diagnostic, and made the existence query only. -/
theorem Read_removes_vanished (os : OS) (r : SessionResource) (req : resource.ReadRequest)
    (resp : resource.ReadResponse)
    (hresp : Diagnostics.HasError resp.Diagnostics = false)
    (hget : Diagnostics.HasError req.State.Get.1 = false)
    (hgone : (os.PidExists req.State.Get.2.Pid.ValueInt32).1 = false) :
    (SessionResource.Read os r req resp).1.State.Raw = none ∧
    (SessionResource.Read os r req resp).1.Diagnostics = resp.Diagnostics ∧
    Diagnostics.HasError (SessionResource.Read os r req resp).1.Diagnostics = false ∧
    (SessionResource.Read os r req resp).2 = [OsCall.PidExists req.State.Get.2.Pid.ValueInt32] := by
  have hd := Diagnostics.Append_Get_of_no_error resp.Diagnostics req.State hget
  simp [SessionResource.Read, hd, hresp, hgone, tfsdk.State.RemoveResource]

/-- Witness of C1: the stored session of pid 4242 in a world where the process
has gone. -/
theorem Read_removes_vanished_witness :
    Diagnostics.HasError ([] : Diagnostics) = false ∧
    (SessionResource.Read osGone sampleResource { State := { Raw := some sampleStored } }
      { State := { Raw := some sampleStored }, Diagnostics := [] }).1.State.Raw = none ∧
    (SessionResource.Read osGone sampleResource { State := { Raw := some sampleStored } }
      { State := { Raw := some sampleStored }, Diagnostics := [] }).1.Diagnostics = [] :=
  have h := Read_removes_vanished osGone sampleResource { State := { Raw := some sampleStored } }
    { State := { Raw := some sampleStored }, Diagnostics := [] } rfl rfl rfl
  ⟨rfl, h.1, h.2.1⟩

/-- C2 (Read, alive path).  First part: for a persisted state that decodes
without error, handed a response without errors, if the existence query for the
stored pid answers that the process exists, `Read` writes back a state equal to
the input state, so with the same wad and the same pid, and adds no diagnostic.
Second part: after a successful `Create`, a `Read` of the state `Create` wrote,
with the process still alive, returns exactly that state and no diagnostic. -/
theorem Read_keeps_alive :
    (∀ (os : OS) (r : SessionResource) (req : resource.ReadRequest) (resp : resource.ReadResponse),
      Diagnostics.HasError resp.Diagnostics = false →
      Diagnostics.HasError req.State.Get.1 = false →
      (os.PidExists req.State.Get.2.Pid.ValueInt32).1 = true →
      (SessionResource.Read os r req resp).1.State = req.State ∧
      (SessionResource.Read os r req resp).1.State.Get.2.Wad = req.State.Get.2.Wad ∧
      (SessionResource.Read os r req resp).1.State.Get.2.Pid = req.State.Get.2.Pid ∧
      (SessionResource.Read os r req resp).1.Diagnostics = resp.Diagnostics ∧
      Diagnostics.HasError (SessionResource.Read os r req resp).1.Diagnostics = false) ∧
    (∀ (os0 os1 : OS) (r : SessionResource) (creq : resource.CreateRequest)
      (cresp : resource.CreateResponse) (pid : Int),
      Diagnostics.HasError cresp.Diagnostics = false →
      Diagnostics.HasError creq.Plan.Get.1 = false →
      os0.Start r.path ["-iwad", creq.Plan.Get.2.Wad.ValueString] = Except.ok pid →
      os0.Release pid = none →
      (os1.PidExists (int32 pid)).1 = true →
      (SessionResource.Read os1 r { State := (SessionResource.Create os0 r creq cresp).1.State }
        { State := (SessionResource.Create os0 r creq cresp).1.State, Diagnostics := [] }).1 =
        { State := (SessionResource.Create os0 r creq cresp).1.State, Diagnostics := [] } ∧
      (SessionResource.Create os0 r creq cresp).1.State.Raw =
        some { Wad := creq.Plan.Get.2.Wad, Pid := types.Int32.Value (int32 pid) }) := by
  have general : ∀ (os : OS) (r : SessionResource) (req : resource.ReadRequest)
      (resp : resource.ReadResponse),
      Diagnostics.HasError resp.Diagnostics = false →
      Diagnostics.HasError req.State.Get.1 = false →
      (os.PidExists req.State.Get.2.Pid.ValueInt32).1 = true →
      (SessionResource.Read os r req resp).1.State = req.State ∧
      (SessionResource.Read os r req resp).1.Diagnostics = resp.Diagnostics := by
    intro os r req resp hresp hget halive
    have hd := Diagnostics.Append_Get_of_no_error resp.Diagnostics req.State hget
    have hst := tfsdk.State.mk_Get_of_no_error req.State hget
    simp [SessionResource.Read, hd, hresp, halive, tfsdk.State.Set, Diagnostics.Append_nil, hst]
  refine ⟨?_, ?_⟩
  · intro os r req resp hresp hget halive
    obtain ⟨h1, h2⟩ := general os r req resp hresp hget halive
    refine ⟨h1, by rw [h1], by rw [h1], h2, by rw [h2]; exact hresp⟩
  · intro os0 os1 r creq cresp pid hresp hget hstart hrel halive
    have hd : Diagnostics.Append cresp.Diagnostics creq.Plan.Get.1 = cresp.Diagnostics := by
      rw [(tfsdk.Plan.Get_plan_no_error creq.Plan hget).2, Diagnostics.Append_nil]
    have hc : (SessionResource.Create os0 r creq cresp).1.State =
        { Raw := some { Wad := creq.Plan.Get.2.Wad, Pid := types.Int32.Value (int32 pid) } } := by
      simp [SessionResource.Create, hd, hresp, hstart, hrel, tfsdk.State.Set, types.Int32Value]
    rw [hc]
    obtain ⟨h1, h2⟩ := general os1 r
      { State := { Raw := some { Wad := creq.Plan.Get.2.Wad,
                                 Pid := types.Int32.Value (int32 pid) } } }
      { State := { Raw := some { Wad := creq.Plan.Get.2.Wad,
                                 Pid := types.Int32.Value (int32 pid) } }, Diagnostics := [] }
      rfl rfl halive
    refine ⟨?_, rfl⟩
    cases hr : (SessionResource.Read os1 r
      { State := { Raw := some { Wad := creq.Plan.Get.2.Wad,
                                 Pid := types.Int32.Value (int32 pid) } } }
      { State := { Raw := some { Wad := creq.Plan.Get.2.Wad,
                                 Pid := types.Int32.Value (int32 pid) } }, Diagnostics := [] }).1 with
    | mk st ds =>
      rw [hr] at h1 h2
      simp only at h1 h2
      rw [h1, h2]

/-- Witness of C2: the stored session of pid 4242 read in a world where the
process exists, and the same session created and then read. -/
theorem Read_keeps_alive_witness :
    (SessionResource.Read osAllGood sampleResource { State := { Raw := some sampleStored } }
      { State := { Raw := some sampleStored }, Diagnostics := [] }).1.State =
      { Raw := some sampleStored } ∧
    (SessionResource.Read osAllGood sampleResource
      { State := (SessionResource.Create osAllGood sampleResource
          { Plan := { Raw := some samplePlanned } }
          { State := { Raw := none }, Diagnostics := [] }).1.State }
      { State := (SessionResource.Create osAllGood sampleResource
          { Plan := { Raw := some samplePlanned } }
          { State := { Raw := none }, Diagnostics := [] }).1.State, Diagnostics := [] }).1 =
      { State := (SessionResource.Create osAllGood sampleResource
          { Plan := { Raw := some samplePlanned } }
          { State := { Raw := none }, Diagnostics := [] }).1.State, Diagnostics := [] } :=
  ⟨(Read_keeps_alive.1 osAllGood sampleResource { State := { Raw := some sampleStored } }
      { State := { Raw := some sampleStored }, Diagnostics := [] } rfl rfl rfl).1,
   (Read_keeps_alive.2 osAllGood osAllGood sampleResource
      { Plan := { Raw := some samplePlanned } }
      { State := { Raw := none }, Diagnostics := [] } 4242 rfl rfl rfl rfl rfl).1⟩

/-- C8, as stated, fails: the stored session of pid 4242 decodes without error,
the existence query returns an error together with a negative flag, and `Read`
leaves a null state, so the resource is removed, with no diagnostic. -/
theorem Read_query_error_removes :
    Diagnostics.HasError (tfsdk.State.Get { Raw := some sampleStored }).1 = false ∧
    osAllFail.PidExists 4242 = (false, some "input/output error") ∧
    (SessionResource.Read osAllFail sampleResource { State := { Raw := some sampleStored } }
      { State := { Raw := some sampleStored }, Diagnostics := [] }).1.State.Raw = none ∧
    (SessionResource.Read osAllFail sampleResource { State := { Raw := some sampleStored } }
      { State := { Raw := some sampleStored }, Diagnostics := [] }).1.Diagnostics = [] :=
  ⟨rfl, rfl, rfl, rfl⟩

/-- C8 (Read, inconclusive query), amended: for a persisted state that decodes
without error, handed a response without errors, if the existence query for
the stored pid returns an error, `Read` discards the error and follows the flag
returned with it: with a positive flag the state is written back unchanged and
so is still present, with a negative flag the resource is removed; in both
cases no diagnostic is added. -/
theorem Read_query_error_follows_flag (os : OS) (r : SessionResource)
    (req : resource.ReadRequest) (resp : resource.ReadResponse) (ok : Bool) (e : string)
    (hresp : Diagnostics.HasError resp.Diagnostics = false)
    (hget : Diagnostics.HasError req.State.Get.1 = false)
    (hquery : os.PidExists req.State.Get.2.Pid.ValueInt32 = (ok, some e)) :
    (ok = true →
      (SessionResource.Read os r req resp).1.State = req.State ∧
      (SessionResource.Read os r req resp).1.State.Raw = some req.State.Get.2) ∧
    (ok = false →
      (SessionResource.Read os r req resp).1.State.Raw = none) ∧
    (SessionResource.Read os r req resp).1.Diagnostics = resp.Diagnostics := by
  have hd := Diagnostics.Append_Get_of_no_error resp.Diagnostics req.State hget
  have hst := tfsdk.State.mk_Get_of_no_error req.State hget
  refine ⟨?_, ?_, ?_⟩
  · intro halive
    have h1 : (SessionResource.Read os r req resp).1.State = req.State := by
      simp [SessionResource.Read, hd, hresp, hquery, halive, tfsdk.State.Set, hst]
    exact ⟨h1, by rw [h1]; exact (tfsdk.State.Get_state_no_error req.State hget).1⟩
  · intro hgone
    simp [SessionResource.Read, hd, hresp, hquery, hgone, tfsdk.State.RemoveResource]
  · cases ok <;>
      simp [SessionResource.Read, hd, hresp, hquery, tfsdk.State.Set, Diagnostics.Append_nil]

/-- Witness of the amended C8: the existence query returns an error together
with a positive flag, and the stored session is still present. -/
theorem Read_query_error_follows_flag_witness :
    osHalf.PidExists 4242 = (true, some "input/output error") ∧
    (SessionResource.Read osHalf sampleResource { State := { Raw := some sampleStored } }
      { State := { Raw := some sampleStored }, Diagnostics := [] }).1.State.Raw =
      some sampleStored :=
  ⟨rfl, ((Read_query_error_follows_flag osHalf sampleResource
      { State := { Raw := some sampleStored } }
      { State := { Raw := some sampleStored }, Diagnostics := [] }
      true "input/output error" rfl rfl rfl).1 rfl).2⟩

/-! ## Create -/

/-- C3 (Create, success path): for a plan that decodes without error, handed a
response without errors, with any configured path, if the start succeeds with
process id `pid` (an id in the range of a 32-bit integer) and the release of
the handle succeeds, `Create` launched exactly one process, the configured path
with the arguments `-iwad` and the wad, the state it writes holds the planned
wad unchanged and the pid, and no diagnostic is added. -/
theorem Create_success (os : OS) (r : SessionResource) (req : resource.CreateRequest)
    (resp : resource.CreateResponse) (pid : Int)
    (hresp : Diagnostics.HasError resp.Diagnostics = false)
    (hget : Diagnostics.HasError req.Plan.Get.1 = false)
    (hstart : os.Start r.path ["-iwad", req.Plan.Get.2.Wad.ValueString] = Except.ok pid)
    (hrelease : os.Release pid = none)
    (hpid : -2 ^ 31 ≤ pid ∧ pid < 2 ^ 31) :
    (SessionResource.Create os r req resp).2.filter launches =
      [OsCall.Start r.path ["-iwad", req.Plan.Get.2.Wad.ValueString]] ∧
    (SessionResource.Create os r req resp).2 =
      [OsCall.Start r.path ["-iwad", req.Plan.Get.2.Wad.ValueString], OsCall.Release pid,
        OsCall.Trace ("started " ++ r.path ++ " with pid " ++ toString pid)] ∧
    (SessionResource.Create os r req resp).1.State.Raw =
      some { Wad := req.Plan.Get.2.Wad, Pid := types.Int32.Value pid } ∧
    (SessionResource.Create os r req resp).1.Diagnostics = resp.Diagnostics ∧
    Diagnostics.HasError (SessionResource.Create os r req resp).1.Diagnostics = false := by
  have hd : Diagnostics.Append resp.Diagnostics req.Plan.Get.1 = resp.Diagnostics := by
    rw [(tfsdk.Plan.Get_plan_no_error req.Plan hget).2, Diagnostics.Append_nil]
  simp [SessionResource.Create, hd, hresp, hstart, hrelease, tfsdk.State.Set, types.Int32Value,
    int32_of_range pid hpid, Diagnostics.Append_nil, launches]

/-- Witness of C3: the planned session created in a world where every call
succeeds and the new process gets id 4242. -/
theorem Create_success_witness :
    osAllGood.Start "/usr/bin/doom" ["-iwad", "freedoom1.wad"] = Except.ok 4242 ∧
    (SessionResource.Create osAllGood sampleResource { Plan := { Raw := some samplePlanned } }
      { State := { Raw := none }, Diagnostics := [] }).1.State.Raw = some sampleStored ∧
    (SessionResource.Create osAllGood sampleResource { Plan := { Raw := some samplePlanned } }
      { State := { Raw := none }, Diagnostics := [] }).2.filter launches =
      [OsCall.Start "/usr/bin/doom" ["-iwad", "freedoom1.wad"]] :=
  have h := Create_success osAllGood sampleResource { Plan := { Raw := some samplePlanned } }
    { State := { Raw := none }, Diagnostics := [] } 4242 rfl rfl rfl rfl (by decide)
  ⟨rfl, h.2.2.1, h.1⟩

/-- C4 (Create, failure paths): for every plan and every response handed in, if
the start fails, or the start succeeds and the release of the handle fails,
`Create` leaves the response state as it was on entry and the response holds an
error diagnostic; when the plan decoded without error that diagnostic is the
launch error, `Failed to start Doom` with the text of the error. -/
theorem Create_failure (os : OS) (r : SessionResource) (req : resource.CreateRequest)
    (resp : resource.CreateResponse) :
    (∀ e : string, os.Start r.path ["-iwad", req.Plan.Get.2.Wad.ValueString] = Except.error e →
      (SessionResource.Create os r req resp).1.State = resp.State ∧
      Diagnostics.HasError (SessionResource.Create os r req resp).1.Diagnostics = true ∧
      (Diagnostics.HasError resp.Diagnostics = false →
        Diagnostics.HasError req.Plan.Get.1 = false →
        NewErrorDiagnostic "Failed to start Doom" ("... details ... " ++ e) ∈
          (SessionResource.Create os r req resp).1.Diagnostics)) ∧
    (∀ (pid : Int) (e : string),
      os.Start r.path ["-iwad", req.Plan.Get.2.Wad.ValueString] = Except.ok pid →
      os.Release pid = some e →
      (SessionResource.Create os r req resp).1.State = resp.State ∧
      Diagnostics.HasError (SessionResource.Create os r req resp).1.Diagnostics = true ∧
      (Diagnostics.HasError resp.Diagnostics = false →
        Diagnostics.HasError req.Plan.Get.1 = false →
        NewErrorDiagnostic "Failed to start Doom" ("... details ... " ++ e) ∈
          (SessionResource.Create os r req resp).1.Diagnostics)) := by
  refine ⟨?_, ?_⟩
  · intro e hstart
    by_cases hearly : Diagnostics.HasError
        (Diagnostics.Append resp.Diagnostics req.Plan.Get.1) = true
    · refine ⟨by simp [SessionResource.Create, hearly],
        by simp [SessionResource.Create, hearly], ?_⟩
      intro hresp hget
      rw [Diagnostics.HasError_Append, hresp, hget] at hearly
      simp at hearly
    · simp [SessionResource.Create, hearly, hstart, Diagnostics.HasError_AddError,
        Diagnostics.mem_AddError]
  · intro pid e hstart hrelease
    by_cases hearly : Diagnostics.HasError
        (Diagnostics.Append resp.Diagnostics req.Plan.Get.1) = true
    · refine ⟨by simp [SessionResource.Create, hearly],
        by simp [SessionResource.Create, hearly], ?_⟩
      intro hresp hget
      rw [Diagnostics.HasError_Append, hresp, hget] at hearly
      simp at hearly
    · simp [SessionResource.Create, hearly, hstart, hrelease, Diagnostics.HasError_AddError,
        Diagnostics.mem_AddError]

/-- Witness of C4: the planned session in a world where the start fails, and in
a world where the start succeeds and the release fails. -/
theorem Create_failure_witness :
    (SessionResource.Create osAllFail sampleResource { Plan := { Raw := some samplePlanned } }
      { State := { Raw := none }, Diagnostics := [] }).1.State = { Raw := none } ∧
    Diagnostics.HasError (SessionResource.Create osHalf sampleResource
      { Plan := { Raw := some samplePlanned } }
      { State := { Raw := none }, Diagnostics := [] }).1.Diagnostics = true :=
  ⟨((Create_failure osAllFail sampleResource { Plan := { Raw := some samplePlanned } }
      { State := { Raw := none }, Diagnostics := [] }).1 "fork/exec: permission denied" rfl).1,
   ((Create_failure osHalf sampleResource { Plan := { Raw := some samplePlanned } }
      { State := { Raw := none }, Diagnostics := [] }).2 4242 "invalid argument" rfl rfl).2.1⟩

/-! ## Delete -/

/-- C5 (Delete on a vanished process): for a persisted state that decodes
without error, handed a response without errors, if the lookup of the stored
pid fails, `Delete` makes the lookup and nothing else, so it sends no kill
signal, adds no diagnostic, and leaves the response state as it was. -/
theorem Delete_vanished (os : OS) (r : SessionResource) (req : resource.DeleteRequest)
    (resp : resource.DeleteResponse) (e : string)
    (hresp : Diagnostics.HasError resp.Diagnostics = false)
    (hget : Diagnostics.HasError req.State.Get.1 = false)
    (hlookup : os.NewProcess req.State.Get.2.Pid.ValueInt32 = some e) :
    (SessionResource.Delete os r req resp).2.filter signals = [] ∧
    (SessionResource.Delete os r req resp).2 =
      [OsCall.NewProcess req.State.Get.2.Pid.ValueInt32] ∧
    (SessionResource.Delete os r req resp).1.Diagnostics = resp.Diagnostics ∧
    Diagnostics.HasError (SessionResource.Delete os r req resp).1.Diagnostics = false ∧
    (SessionResource.Delete os r req resp).1.State = resp.State := by
  have hd := Diagnostics.Append_Get_of_no_error resp.Diagnostics req.State hget
  simp [SessionResource.Delete, hd, hresp, hlookup, signals]

/-- Witness of C5: the stored session of pid 4242 deleted in a world where the
process has gone. -/
theorem Delete_vanished_witness :
    osGone.NewProcess 4242 = some "process does not exist" ∧
    (SessionResource.Delete osGone sampleResource { State := { Raw := some sampleStored } }
      { State := { Raw := some sampleStored }, Diagnostics := [] }).2.filter signals = [] ∧
    (SessionResource.Delete osGone sampleResource { State := { Raw := some sampleStored } }
      { State := { Raw := some sampleStored }, Diagnostics := [] }).1.Diagnostics = [] :=
  have h := Delete_vanished osGone sampleResource { State := { Raw := some sampleStored } }
    { State := { Raw := some sampleStored }, Diagnostics := [] } "process does not exist"
    rfl rfl rfl
  ⟨rfl, h.1, h.2.2.1⟩

/-- C6 (Delete, termination failure): for a persisted state that decodes
without error, handed a response without errors, if the lookup of the stored
pid succeeds, then: when the kill fails, `Delete` adds the error diagnostic
`Failed to kill Doom session` with the text of the error and leaves the
response state as it was, so a response state that held the persisted object
still holds it; when the kill succeeds, `Delete` adds no diagnostic. -/
theorem Delete_kill (os : OS) (r : SessionResource) (req : resource.DeleteRequest)
    (resp : resource.DeleteResponse)
    (hresp : Diagnostics.HasError resp.Diagnostics = false)
    (hget : Diagnostics.HasError req.State.Get.1 = false)
    (hlookup : os.NewProcess req.State.Get.2.Pid.ValueInt32 = none) :
    (∀ e : string, os.Kill req.State.Get.2.Pid.ValueInt32 = some e →
      NewErrorDiagnostic "Failed to kill Doom session" ("... details ... " ++ e) ∈
        (SessionResource.Delete os r req resp).1.Diagnostics ∧
      Diagnostics.HasError (SessionResource.Delete os r req resp).1.Diagnostics = true ∧
      (SessionResource.Delete os r req resp).1.State = resp.State ∧
      (resp.State = req.State →
        (SessionResource.Delete os r req resp).1.State.Raw = some req.State.Get.2)) ∧
    (os.Kill req.State.Get.2.Pid.ValueInt32 = none →
      (SessionResource.Delete os r req resp).1.Diagnostics = resp.Diagnostics ∧
      Diagnostics.HasError (SessionResource.Delete os r req resp).1.Diagnostics = false ∧
      (SessionResource.Delete os r req resp).2 =
        [OsCall.NewProcess req.State.Get.2.Pid.ValueInt32,
          OsCall.Kill req.State.Get.2.Pid.ValueInt32]) := by
  have hd := Diagnostics.Append_Get_of_no_error resp.Diagnostics req.State hget
  refine ⟨?_, ?_⟩
  · intro e hkill
    have hstate : (SessionResource.Delete os r req resp).1.State = resp.State := by
      simp [SessionResource.Delete, hd, hresp, hlookup, hkill]
    refine ⟨?_, ?_, hstate, ?_⟩
    · simp [SessionResource.Delete, hd, hresp, hlookup, hkill, Diagnostics.mem_AddError]
    · simp [SessionResource.Delete, hd, hresp, hlookup, hkill, Diagnostics.HasError_AddError]
    · intro hsame
      rw [hstate, hsame]
      exact (tfsdk.State.Get_state_no_error req.State hget).1
  · intro hkill
    simp [SessionResource.Delete, hd, hresp, hlookup, hkill]

/-- Witness of C6: the stored session of pid 4242 deleted in a world where the
process is found and the kill fails. -/
theorem Delete_kill_witness :
    osHalf.Kill 4242 = some "operation not permitted" ∧
    (SessionResource.Delete osHalf sampleResource { State := { Raw := some sampleStored } }
      { State := { Raw := some sampleStored }, Diagnostics := [] }).1.State =
      { Raw := some sampleStored } ∧
    Diagnostics.HasError
      (SessionResource.Delete osHalf sampleResource { State := { Raw := some sampleStored } }
        { State := { Raw := some sampleStored }, Diagnostics := [] }).1.Diagnostics = true :=
  have h := (Delete_kill osHalf sampleResource { State := { Raw := some sampleStored } }
    { State := { Raw := some sampleStored }, Diagnostics := [] } rfl rfl rfl).1
    "operation not permitted" rfl
  ⟨rfl, h.2.2.1, h.2.1⟩

/-! ## Update -/

/-- C7 (Update is unsupported): for every resource, every update request and
every response that does not already hold it, `Update` appends exactly one
diagnostic, the error `Update not supported`, makes no call to the outside
world, so it launches and signals nothing, and leaves the response state
unchanged. -/
theorem Update_unsupported (r : SessionResource) (req : resource.UpdateRequest)
    (resp : resource.UpdateResponse)
    (hfresh : NewErrorDiagnostic "Update not supported"
      "Please report this issue to the provider developers." ∉ resp.Diagnostics) :
    (SessionResource.Update r req resp).1.Diagnostics =
      resp.Diagnostics ++ [NewErrorDiagnostic "Update not supported"
        "Please report this issue to the provider developers."] ∧
    (NewErrorDiagnostic "Update not supported"
      "Please report this issue to the provider developers.").severity = Severity.Error ∧
    Diagnostics.HasError (SessionResource.Update r req resp).1.Diagnostics = true ∧
    (SessionResource.Update r req resp).2 = [] ∧
    (SessionResource.Update r req resp).1.State = resp.State := by
  refine ⟨?_, rfl, ?_, rfl, rfl⟩
  · simp only [SessionResource.Update]
    exact Diagnostics.AddError_of_not_mem _ _ _ hfresh
  · simp only [SessionResource.Update]
    exact Diagnostics.HasError_AddError _ _ _

/-- Witness of C7: an update of the stored session, handed a response without
diagnostics. -/
theorem Update_unsupported_witness :
    (SessionResource.Update sampleResource
      { Plan := { Raw := some samplePlanned }, State := { Raw := some sampleStored } }
      { State := { Raw := some sampleStored }, Diagnostics := [] }).1.Diagnostics =
      [] ++ [NewErrorDiagnostic "Update not supported"
        "Please report this issue to the provider developers."] ∧
    (SessionResource.Update sampleResource
      { Plan := { Raw := some samplePlanned }, State := { Raw := some sampleStored } }
      { State := { Raw := some sampleStored }, Diagnostics := [] }).1.State =
      { Raw := some sampleStored } :=
  have h := Update_unsupported sampleResource
    { Plan := { Raw := some samplePlanned }, State := { Raw := some sampleStored } }
    { State := { Raw := some sampleStored }, Diagnostics := [] } (List.not_mem_nil _)
  ⟨h.1, h.2.2.2.2⟩

/-! ## Configuration -/

/-- C9 (the locator gates the resource): for a configuration that decodes
without error, handed a response without errors: when the executable lookup
of the configured path fails, the provider's `Configure` adds the error
diagnostic `Failed to find Doom executable` and leaves `ResourceData` as it
was, so a response that came with it unset still has it unset and the
resource's `Configure`, handed that `ResourceData`, stores no path; when the
lookup succeeds with `path`, `ResourceData` is exactly `path`, no diagnostic is
added, and the resource's `Configure`, handed that `ResourceData`, stores
`path` as the resource's path and adds no diagnostic. -/
theorem Configure_locator (os : OS) (p : DoomProvider) (req : provider.ConfigureRequest)
    (resp : provider.ConfigureResponse)
    (hresp : Diagnostics.HasError resp.Diagnostics = false)
    (hget : Diagnostics.HasError req.Config.Get.1 = false) :
    (∀ e : string, os.LookPath req.Config.Get.2.Path.ValueString = Except.error e →
      NewErrorDiagnostic "Failed to find Doom executable" ("... details ... " ++ e) ∈
        (DoomProvider.Configure os p req resp).1.Diagnostics ∧
      Diagnostics.HasError (DoomProvider.Configure os p req resp).1.Diagnostics = true ∧
      (DoomProvider.Configure os p req resp).1.ResourceData = resp.ResourceData ∧
      (resp.ResourceData = none →
        (DoomProvider.Configure os p req resp).1.ResourceData = none ∧
        ∀ (r : SessionResource) (rresp : resource.ConfigureResponse),
          SessionResource.Configure r
            { ProviderData := (DoomProvider.Configure os p req resp).1.ResourceData } rresp =
            (r, rresp))) ∧
    (∀ path : string, os.LookPath req.Config.Get.2.Path.ValueString = Except.ok path →
      (DoomProvider.Configure os p req resp).1.ResourceData = some (any.String path) ∧
      (DoomProvider.Configure os p req resp).1.Diagnostics = resp.Diagnostics ∧
      ∀ (r : SessionResource) (rresp : resource.ConfigureResponse),
        (SessionResource.Configure r
          { ProviderData := (DoomProvider.Configure os p req resp).1.ResourceData } rresp).1.path =
          path ∧
        (SessionResource.Configure r
          { ProviderData := (DoomProvider.Configure os p req resp).1.ResourceData } rresp).2 =
          rresp) := by
  have hd : Diagnostics.Append resp.Diagnostics req.Config.Get.1 = resp.Diagnostics := by
    rw [(tfsdk.Config.Get_config_no_error req.Config hget).2, Diagnostics.Append_nil]
  refine ⟨?_, ?_⟩
  · intro e hlook
    have hdata : (DoomProvider.Configure os p req resp).1.ResourceData = resp.ResourceData := by
      simp [DoomProvider.Configure, hd, hresp, hlook]
    refine ⟨?_, ?_, hdata, ?_⟩
    · simp [DoomProvider.Configure, hd, hresp, hlook, Diagnostics.mem_AddError]
    · simp [DoomProvider.Configure, hd, hresp, hlook, Diagnostics.HasError_AddError]
    · intro hunset
      rw [hdata, hunset]
      exact ⟨rfl, fun r rresp => rfl⟩
  · intro path hlook
    have hdata : (DoomProvider.Configure os p req resp).1.ResourceData =
        some (any.String path) := by
      simp [DoomProvider.Configure, hd, hresp, hlook]
    refine ⟨hdata, ?_, ?_⟩
    · simp [DoomProvider.Configure, hd, hresp, hlook]
    · intro r rresp
      rw [hdata]
      exact ⟨rfl, rfl⟩

/-- Witness of C9: the configured name `doom` in a world where the lookup
fails, and in a world where it resolves to `/usr/bin/doom`. -/
theorem Configure_locator_witness :
    (DoomProvider.Configure osAllFail { version := "dev" }
      { Config := { Raw := some { Path := types.String.Value "doom" } } }
      { ResourceData := none, Diagnostics := [] }).1.ResourceData = none ∧
    (DoomProvider.Configure osAllGood { version := "dev" }
      { Config := { Raw := some { Path := types.String.Value "doom" } } }
      { ResourceData := none, Diagnostics := [] }).1.ResourceData =
      some (any.String ("/usr/bin/" ++ "doom")) :=
  ⟨((((Configure_locator osAllFail { version := "dev" }
      { Config := { Raw := some { Path := types.String.Value "doom" } } }
      { ResourceData := none, Diagnostics := [] } rfl rfl).1
      "executable file not found in $PATH" rfl).2.2.2) rfl).1,
   ((Configure_locator osAllGood { version := "dev" }
      { Config := { Raw := some { Path := types.String.Value "doom" } } }
      { ResourceData := none, Diagnostics := [] } rfl rfl).2
      ("/usr/bin/" ++ "doom") rfl).1⟩

/-! ## Error reporting -/

/-- C10, as stated, fails: the existence query of `Read` returns an error, and
the diagnostics `Read` leaves hold no error diagnostic with the text of that
error (they are empty). -/
theorem Read_swallows_query_error :
    osAllFail.PidExists 4242 = (false, some "input/output error") ∧
    (SessionResource.Read osAllFail sampleResource { State := { Raw := some sampleStored } }
      { State := { Raw := some sampleStored }, Diagnostics := [] }).2 =
      [OsCall.PidExists 4242] ∧
    ¬ reportsError
      (SessionResource.Read osAllFail sampleResource { State := { Raw := some sampleStored } }
        { State := { Raw := some sampleStored }, Diagnostics := [] }).1.Diagnostics
      "input/output error" := by
  refine ⟨rfl, rfl, ?_⟩
  rintro ⟨d, hd, _⟩
  exact absurd hd (List.not_mem_nil d)

/-- C10 (errors of the operating system), amended: for requests that decode
without error, handed a response without errors, an error `e` returned by the
executable lookup in the provider's `Configure`, by the start or by the release
of the handle in `Create`, or by the kill in `Delete`, is reported: the
operation leaves an error diagnostic whose detail contains the text of `e`.
The error of the existence query of `Read` is discarded whatever it is, and any
error of the process lookup of `Delete` counts as success: in these two places
no diagnostic is added. -/
theorem OS_errors_reported :
    (∀ (os : OS) (p : DoomProvider) (req : provider.ConfigureRequest)
      (resp : provider.ConfigureResponse) (e : string),
      Diagnostics.HasError resp.Diagnostics = false →
      Diagnostics.HasError req.Config.Get.1 = false →
      os.LookPath req.Config.Get.2.Path.ValueString = Except.error e →
      reportsError (DoomProvider.Configure os p req resp).1.Diagnostics e) ∧
    (∀ (os : OS) (r : SessionResource) (req : resource.CreateRequest)
      (resp : resource.CreateResponse) (e : string),
      Diagnostics.HasError resp.Diagnostics = false →
      Diagnostics.HasError req.Plan.Get.1 = false →
      os.Start r.path ["-iwad", req.Plan.Get.2.Wad.ValueString] = Except.error e →
      reportsError (SessionResource.Create os r req resp).1.Diagnostics e) ∧
    (∀ (os : OS) (r : SessionResource) (req : resource.CreateRequest)
      (resp : resource.CreateResponse) (pid : Int) (e : string),
      Diagnostics.HasError resp.Diagnostics = false →
      Diagnostics.HasError req.Plan.Get.1 = false →
      os.Start r.path ["-iwad", req.Plan.Get.2.Wad.ValueString] = Except.ok pid →
      os.Release pid = some e →
      reportsError (SessionResource.Create os r req resp).1.Diagnostics e) ∧
    (∀ (os : OS) (r : SessionResource) (req : resource.DeleteRequest)
      (resp : resource.DeleteResponse) (e : string),
      Diagnostics.HasError resp.Diagnostics = false →
      Diagnostics.HasError req.State.Get.1 = false →
      os.NewProcess req.State.Get.2.Pid.ValueInt32 = none →
      os.Kill req.State.Get.2.Pid.ValueInt32 = some e →
      reportsError (SessionResource.Delete os r req resp).1.Diagnostics e) ∧
    (∀ (os : OS) (r : SessionResource) (req : resource.ReadRequest)
      (resp : resource.ReadResponse),
      Diagnostics.HasError resp.Diagnostics = false →
      Diagnostics.HasError req.State.Get.1 = false →
      (SessionResource.Read os r req resp).1.Diagnostics = resp.Diagnostics) ∧
    (∀ (os : OS) (r : SessionResource) (req : resource.DeleteRequest)
      (resp : resource.DeleteResponse) (e : string),
      Diagnostics.HasError resp.Diagnostics = false →
      Diagnostics.HasError req.State.Get.1 = false →
      os.NewProcess req.State.Get.2.Pid.ValueInt32 = some e →
      (SessionResource.Delete os r req resp).1.Diagnostics = resp.Diagnostics) := by
  refine ⟨?_, ?_, ?_, ?_, ?_, ?_⟩
  · intro os p req resp e hresp hget hlook
    have hd : Diagnostics.Append resp.Diagnostics req.Config.Get.1 = resp.Diagnostics := by
      rw [(tfsdk.Config.Get_config_no_error req.Config hget).2, Diagnostics.Append_nil]
    simp only [DoomProvider.Configure, hd, hresp, hlook]
    exact Diagnostics.reportsError_AddError _ _ _ _
  · intro os r req resp e hresp hget hstart
    have hd : Diagnostics.Append resp.Diagnostics req.Plan.Get.1 = resp.Diagnostics := by
      rw [(tfsdk.Plan.Get_plan_no_error req.Plan hget).2, Diagnostics.Append_nil]
    simp only [SessionResource.Create, hd, hresp, hstart]
    exact Diagnostics.reportsError_AddError _ _ _ _
  · intro os r req resp pid e hresp hget hstart hrelease
    have hd : Diagnostics.Append resp.Diagnostics req.Plan.Get.1 = resp.Diagnostics := by
      rw [(tfsdk.Plan.Get_plan_no_error req.Plan hget).2, Diagnostics.Append_nil]
    simp only [SessionResource.Create, hd, hresp, hstart, hrelease]
    exact Diagnostics.reportsError_AddError _ _ _ _
  · intro os r req resp e hresp hget hlookup hkill
    have hd := Diagnostics.Append_Get_of_no_error resp.Diagnostics req.State hget
    simp only [SessionResource.Delete, hd, hresp, hlookup, hkill]
    exact Diagnostics.reportsError_AddError _ _ _ _
  · intro os r req resp hresp hget
    have hd := Diagnostics.Append_Get_of_no_error resp.Diagnostics req.State hget
    cases hflag : (os.PidExists req.State.Get.2.Pid.ValueInt32).1 <;>
      simp [SessionResource.Read, hd, hresp, hflag, tfsdk.State.Set, Diagnostics.Append_nil]
  · intro os r req resp e hresp hget hlookup
    have hd := Diagnostics.Append_Get_of_no_error resp.Diagnostics req.State hget
    simp [SessionResource.Delete, hd, hresp, hlookup]

/-- Witness of the amended C10: a failed start is reported with its text, and
a failed existence query leaves no diagnostic. -/
theorem OS_errors_reported_witness :
    reportsError (SessionResource.Create osAllFail sampleResource
      { Plan := { Raw := some samplePlanned } }
      { State := { Raw := none }, Diagnostics := [] }).1.Diagnostics
      "fork/exec: permission denied" ∧
    (SessionResource.Read osAllFail sampleResource { State := { Raw := some sampleStored } }
      { State := { Raw := some sampleStored }, Diagnostics := [] }).1.Diagnostics = [] :=
  ⟨OS_errors_reported.2.1 osAllFail sampleResource { Plan := { Raw := some samplePlanned } }
      { State := { Raw := none }, Diagnostics := [] } "fork/exec: permission denied" rfl rfl rfl,
   OS_errors_reported.2.2.2.2.1 osAllFail sampleResource
      { State := { Raw := some sampleStored } }
      { State := { Raw := some sampleStored }, Diagnostics := [] } rfl rfl⟩

end Doom
